import Mathlib

/-!
Shallow embedding of the request/reply correlation layer in
src/messaging/messaging.js, and proofs of the specified properties.

The module keeps three pieces of process-wide state: a `seed` counter
(initially 1), `emitterObj` and `listenerObj` (initially null).  The
operations are `initMessaging`, `sendMessageOneWay`, `sendMessageReply`
and `sendMessageRequest`.  `sendMessageRequest` builds a message with a
fresh identifier, optionally arms a timer and registers a once-listener
on the identifier channel, and emits the message; the returned promise
settles at most once via the timer callback (reject) or the reply
listener (resolve).
-/

namespace Messaging

/-- Opaque payload values handed through the layer; the code never
inspects them, so a simple carrier type suffices. -/
abbrev Value := Nat

/-! ### JavaScript values relevant to the timeout parameter

The `timeout` argument is a JavaScript value: a number, or an absent /
null / NaN value.  Only strict equality with 0, comparison with 0 and
truthiness of the argument are observed by the code, so integers plus
the three non-number shapes are a faithful carrier (JavaScript negative
zero is strictly equal to 0 and falsy, matching `num 0`). -/
inductive JSVal where
  | undef
  | null
  | num (n : Int)
  | nan
  deriving DecidableEq

/-- JavaScript truthiness of a timeout value: numbers are truthy unless
zero; undefined, null and NaN are falsy. -/
def JSVal.truthy : JSVal → Bool
  | .num n => n != 0
  | _ => false

/-- JavaScript strict equality `timeout === 0`. -/
def JSVal.eqZero : JSVal → Bool
  | .num n => n == 0
  | _ => false

/-- JavaScript comparison `timeout < 0`: false for undefined (NaN
comparison), null (coerces to 0) and NaN. -/
def JSVal.ltZero : JSVal → Bool
  | .num n => n < 0
  | _ => false

/-! ### Identifier generation

The source builds the identifier by string interpolation from the
post-incremented seed and the current timestamp, rendering both numbers
in decimal.  `natToChars` is that decimal rendering (fuel-indexed so it
computes by structural recursion; `fuel = n + 1` always suffices since
the number of digits of `n` is at most `n + 1`). -/

/-- The decimal digit characters. -/
def digitChar : Nat → Char
  | 0 => '0'
  | 1 => '1'
  | 2 => '2'
  | 3 => '3'
  | 4 => '4'
  | 5 => '5'
  | 6 => '6'
  | 7 => '7'
  | 8 => '8'
  | _ => '9'

/-- Numeric value of a decimal digit character. -/
def charVal (c : Char) : Nat := c.toNat - 48

/-- Decimal rendering of `n`, most significant digit first, with
explicit fuel. -/
def natToCharsAux : Nat → Nat → List Char
  | 0, _ => []
  | fuel + 1, n =>
    if n < 10 then [digitChar n]
    else natToCharsAux fuel (n / 10) ++ [digitChar (n % 10)]

/-- Decimal rendering of a natural number, as produced by JavaScript
template interpolation of a nonnegative integer. -/
def natToChars (n : Nat) : List Char := natToCharsAux (n + 1) n

/-- Reads a digit string back as a number; left inverse of
`natToChars`. -/
def ofChars (l : List Char) : Nat := l.foldl (fun a c => 10 * a + charVal c) 0

theorem charVal_digitChar : ∀ d, d < 10 → charVal (digitChar d) = d := by decide

theorem digitChar_ne_dash (d : Nat) : digitChar d ≠ '-' := by
  unfold digitChar
  split <;> decide

theorem ofChars_append_digit (l : List Char) (c : Char) :
    ofChars (l ++ [c]) = 10 * ofChars l + charVal c := by
  unfold ofChars
  rw [List.foldl_append]
  rfl

theorem ofChars_natToCharsAux :
    ∀ fuel n, n < fuel → ofChars (natToCharsAux fuel n) = n := by
  intro fuel
  induction fuel with
  | zero => intro n h; exact absurd h (Nat.not_lt_zero n)
  | succ f ih =>
    intro n h
    rw [natToCharsAux]
    by_cases h10 : n < 10
    · rw [if_pos h10]
      show 10 * 0 + charVal (digitChar n) = n
      rw [charVal_digitChar n h10]
      omega
    · rw [if_neg h10]
      have hdiv : n / 10 < n := Nat.div_lt_self (by omega) (by omega)
      rw [ofChars_append_digit, ih (n / 10) (by omega),
        charVal_digitChar (n % 10) (Nat.mod_lt n (by omega))]
      exact Nat.div_add_mod n 10

theorem ofChars_natToChars (n : Nat) : ofChars (natToChars n) = n :=
  ofChars_natToCharsAux (n + 1) n (Nat.lt_succ_self n)

theorem natToChars_injective {a b : Nat} (h : natToChars a = natToChars b) :
    a = b := by
  have h2 := congrArg ofChars h
  rwa [ofChars_natToChars, ofChars_natToChars] at h2

theorem mem_natToCharsAux :
    ∀ fuel n c, c ∈ natToCharsAux fuel n → ∃ d, c = digitChar d := by
  intro fuel
  induction fuel with
  | zero => intro n c h; simp [natToCharsAux] at h
  | succ f ih =>
    intro n c h
    rw [natToCharsAux] at h
    by_cases h10 : n < 10
    · rw [if_pos h10] at h
      simp at h
      exact ⟨n, h⟩
    · rw [if_neg h10] at h
      rcases List.mem_append.mp h with h1 | h2
      · exact ih _ _ h1
      · simp at h2
        exact ⟨n % 10, h2⟩

theorem dash_not_mem_natToChars (n : Nat) : '-' ∉ natToChars n := by
  intro hmem
  obtain ⟨d, hd⟩ := mem_natToCharsAux (n + 1) n '-' hmem
  exact digitChar_ne_dash d hd.symm

/-- Splitting at the first dash is unambiguous when neither prefix
contains a dash. -/
theorem append_dash_inj :
    ∀ (l1 : List Char) {r1 l2 r2 : List Char}, '-' ∉ l1 → '-' ∉ l2 →
      l1 ++ '-' :: r1 = l2 ++ '-' :: r2 → l1 = l2 ∧ r1 = r2 := by
  intro l1
  induction l1 with
  | nil =>
    intro r1 l2 r2 _ h2 heq
    cases l2 with
    | nil => simpa using heq
    | cons c l2 =>
      simp at heq
      exact absurd (heq.1 ▸ List.mem_cons_self c l2) h2
  | cons c l1 ih =>
    intro r1 l2 r2 h1 h2 heq
    cases l2 with
    | nil =>
      simp at heq
      exact absurd (heq.1 ▸ List.mem_cons_self c l1) h1
    | cons c2 l2 =>
      simp at heq
      obtain ⟨rfl, heq⟩ := heq
      have h1m : '-' ∉ l1 := fun hx => h1 (List.mem_cons_of_mem _ hx)
      have h2m : '-' ∉ l2 := fun hx => h2 (List.mem_cons_of_mem _ hx)
      obtain ⟨rfl, rfl⟩ := ih h1m h2m heq
      exact ⟨rfl, rfl⟩

/-- The identifier string built at send time: the literal prefix, the
current seed in decimal, a dash, and the timestamp in decimal. -/
def genId (seed time : Nat) : String :=
  ⟨'m' :: 's' :: 'g' :: '-' :: (natToChars seed ++ '-' :: natToChars time)⟩

/-- Identifiers built from different seeds are different strings, even
when the timestamps coincide. -/
theorem genId_inj_of_seed_ne {s1 t1 s2 t2 : Nat} (h : s1 ≠ s2) :
    genId s1 t1 ≠ genId s2 t2 := by
  intro heq
  have hd := congrArg String.data heq
  simp only [genId, List.cons.injEq, true_and] at hd
  obtain ⟨hseed, -⟩ :=
    append_dash_inj (natToChars s1) (dash_not_mem_natToChars s1)
      (dash_not_mem_natToChars s2) hd
  exact h (natToChars_injective hseed)

/-! ### The outbound message and the send configuration -/

/-- The immutable outbound message built by `sendMessageRequest`:
identifier, action name, payload. -/
structure Message where
  id : String
  action : String
  data : Value
  deriving DecidableEq

/-- The per-call flags computed by `sendMessageRequest` from its
`timeout` argument, together with the identifier and action (kept here
because the timer and listener callbacks close over them). -/
structure SendConfig where
  oneWay : Bool
  infinite : Bool
  effTimeout : JSVal
  id : String
  action : String
  deriving DecidableEq

/-- The flag and default-timeout computation at the top of
`sendMessageRequest`: `oneWay` is strict equality with 0, `infinite` is
truthiness conjoined with negativity, and a falsy non-zero timeout
falls back to 2000. -/
def mkConfig (action : String) (timeout : JSVal) (id : String) : SendConfig :=
  let oneWay := timeout.eqZero
  let infinite := timeout.truthy && timeout.ltZero
  let t := if !oneWay && !infinite && !timeout.truthy then JSVal.num 2000
           else timeout
  { oneWay := oneWay, infinite := infinite, effTimeout := t, id := id,
    action := action }

/-! ### The per-call promise state machine

One `sendMessageRequest` call that expects a reply owns: the `timer`
variable (armed handle or null; clearing is modelled by setting the flag
to false, since a cleared timer never fires), the once-listener on the
identifier channel (removed either by firing or by the timer callback
calling removeAllListeners), and the promise outcome, which settles at
most once.  Diagnostic console output is recorded structurally: each
entry carries exactly the identifier and action interpolated into the
warning text by the source. -/

/-- A console.warn diagnostic: the timeout warning and the
late-reply warning, each carrying the identifier and action that the
source interpolates into the message. -/
inductive LogEntry where
  | timedOutWarn (id action : String)
  | lateReplyWarn (id action : String)
  deriving DecidableEq

/-- How the promise settled: resolved with the reply payload, or
rejected with a reason value. -/
inductive Outcome where
  | fulfilled (reply : Value)
  | rejected (reason : String)
  deriving DecidableEq

/-- Promise single-settlement: a second resolve or reject is a no-op. -/
def settle (s : Option Outcome) (o : Outcome) : Option Outcome :=
  match s with
  | some x => some x
  | none => some o

/-- The mutable state owned by one `sendMessageRequest` call. -/
structure ReqState where
  timer : Bool
  listener : Bool
  outcome : Option Outcome
  log : List LogEntry
  deriving DecidableEq

/-- The two asynchronous events that can reach a call: its timer fires,
or a reply arrives on the identifier channel. -/
inductive Event where
  | timerFire
  | replyArrive (v : Value)
  deriving DecidableEq

/-- One event, as handled by the callbacks in `sendMessageRequest`.
The timer callback runs only while the timer is armed (a cleared or
already-fired timer never fires): it nulls the timer, removes all
listeners for the identifier, warns, and rejects.  The reply listener
runs only while registered, and at most once (`once`): if the timer
variable is already null on a finite-timeout call it only warns
(defensive late-reply branch); otherwise it clears the timer and
resolves with the reply. -/
def step (cfg : SendConfig) (s : ReqState) : Event → ReqState
  | .timerFire =>
    if s.timer then
      { timer := false
        listener := false
        outcome := settle s.outcome (.rejected "Timed out")
        log := s.log ++ [.timedOutWarn cfg.id cfg.action] }
    else s
  | .replyArrive v =>
    if s.listener then
      if !cfg.infinite && !s.timer then
        { s with listener := false
                 log := s.log ++ [.lateReplyWarn cfg.id cfg.action] }
      else
        { s with listener := false
                 timer := false
                 outcome := settle s.outcome (.fulfilled v) }
    else s

/-- Runs a sequence of asynchronous events against a call state. -/
def run (cfg : SendConfig) (s : ReqState) (evs : List Event) : ReqState :=
  evs.foldl (step cfg) s

/-- The state right after the synchronous body of the promise executor:
the timer is armed unless the call is one-way or infinite, the
once-listener is registered unless the call is one-way, and nothing has
settled. -/
def initReqState (cfg : SendConfig) : ReqState :=
  { timer := !cfg.oneWay && !cfg.infinite
    listener := !cfg.oneWay
    outcome := none
    log := [] }

/-- The synchronous side effects of the promise executor, in program
order. -/
inductive SyncOp where
  | armTimer (duration : JSVal)
  | registerListener (channel : String)
  | emitSend (channel : String) (message : Message)
  deriving DecidableEq

/-- Everything produced synchronously by one `sendMessageRequest` call:
the message (with its fresh identifier), the computed flags, the
executor state, the ordered side effects, and the incremented seed. -/
structure SendResult where
  message : Message
  cfg : SendConfig
  state : ReqState
  ops : List SyncOp
  nextSeed : Nat
  deriving DecidableEq

/-- `sendMessageRequest action data timeout`, run at seed value `seed`
and timestamp `now`: computes the flags, builds the message with the
identifier from the post-incremented seed and the timestamp, then
(inside the promise executor) arms the timer when a finite wait is
requested, registers the once-listener when a reply is expected, and
finally emits the message on the shared request channel. -/
def sendMessageRequest (action : String) (data : Value) (timeout : JSVal)
    (seed now : Nat) : SendResult :=
  let id := genId seed now
  let cfg := mkConfig action timeout id
  { message := { id := id, action := action, data := data }
    cfg := cfg
    state := initReqState cfg
    ops :=
      (if !cfg.oneWay && !cfg.infinite then [SyncOp.armTimer cfg.effTimeout]
       else [])
      ++ (if !cfg.oneWay then [SyncOp.registerListener id] else [])
      ++ [SyncOp.emitSend "message-request"
            { id := id, action := action, data := data }]
    nextSeed := seed + 1 }

/-- `sendMessageOneWay action data` delegates to `sendMessageRequest`
with timeout 0. -/
def sendMessageOneWay (action : String) (data : Value) (seed now : Nat) :
    SendResult :=
  sendMessageRequest action data (.num 0) seed now

/-! ### Module initialization -/

/-- Opaque handle standing for a JavaScript event-emitter object or
callback function; such arguments are truthy exactly when present, so a
nullable argument is an `Option Handle`. -/
abbrev Handle := Nat

/-- The process-wide module state: the seed counter, the stored emitter
and listener (null until initialized), and the subscriptions made on
the listener, by channel name. -/
structure ModuleState where
  seed : Nat
  emitterObj : Option Handle
  listenerObj : Option Handle
  subs : List String
  deriving DecidableEq

/-- The module state at load: seed 1, no emitter, no listener, no
subscriptions. -/
def initialModuleState : ModuleState :=
  { seed := 1, emitterObj := none, listenerObj := none, subs := [] }

/-- The two synchronous errors `initMessaging` can throw. -/
inductive InitError where
  | alreadyInitialized
  | invalidParameters
  deriving DecidableEq

/-- JavaScript `a || b` on nullable object arguments. -/
def jsOr (a b : Option Handle) : Option Handle :=
  match a with
  | some x => some x
  | none => b

/-- `initMessaging listener emitter callback` against module state
`st`: throws if the emitter is already set; otherwise defaults the
emitter to the listener, throws if listener or callback is missing, and
only then stores both objects and subscribes to the shared request
channel.  The returned state is the module state after the call,
unchanged whenever an error is thrown. -/
def initMessaging (st : ModuleState) (listener emitter callback : Option Handle) :
    Except InitError Unit × ModuleState :=
  if st.emitterObj.isSome then
    (.error .alreadyInitialized, st)
  else
    let emitter := jsOr emitter listener
    if listener.isNone || callback.isNone then
      (.error .invalidParameters, st)
    else
      (.ok (),
        { st with listenerObj := listener
                  emitterObj := emitter
                  subs := st.subs ++ ["message-request"] })

/-! ### Replying to an inbound request -/

/-- The inbound event handle passed to the reply helper; `hasReply`
records whether the handle exposes a (truthy) reply method. -/
structure IncomingEvent where
  hasReply : Bool
  deriving DecidableEq

/-- The dispatch a reply takes: point-to-point through the inbound
event handle, or broadcast on the shared emitter; either way the
channel is the request identifier. -/
inductive ReplyDispatch where
  | viaEvent (channel : String) (data : Value)
  | viaEmitter (channel : String) (data : Value)
  deriving DecidableEq

/-- `sendMessageReply messageId data event`: replies through the event
handle when it exists and exposes a reply method, otherwise through the
shared emitter, tagging the reply with the request identifier as
channel name.  The source function returns nothing; its value is the
dispatch effect. -/
def sendMessageReply (messageId : String) (data : Value)
    (event : Option IncomingEvent) : ReplyDispatch :=
  match event with
  | some e =>
    if e.hasReply then .viaEvent messageId data
    else .viaEmitter messageId data
  | none => .viaEmitter messageId data

/-! ### Helper lemmas about the per-call state machine -/

theorem settle_some (o x : Outcome) : settle (some o) x = some o := rfl

/-- A settled promise stays settled with the same value across any
single event. -/
theorem step_outcome_some (cfg : SendConfig) (s : ReqState) (e : Event)
    {o : Outcome} (h : s.outcome = some o) : (step cfg s e).outcome = some o := by
  cases e <;> simp only [step] <;> (repeat' split) <;> simp [settle, h]

theorem run_append (cfg : SendConfig) (s : ReqState) (l1 l2 : List Event) :
    run cfg s (l1 ++ l2) = run cfg (run cfg s l1) l2 := by
  simp [run, List.foldl_append]

/-- A settled promise stays settled with the same value across any
event sequence. -/
theorem run_outcome_some (cfg : SendConfig) (evs : List Event) :
    ∀ (s : ReqState) {o : Outcome}, s.outcome = some o →
      (run cfg s evs).outcome = some o := by
  induction evs with
  | nil => intro s o h; exact h
  | cons e evs ih => intro s o h; exact ih _ (step_outcome_some cfg s e h)

/-- With no armed timer and no registered listener, every event is a
no-op. -/
theorem step_inert (cfg : SendConfig) {s : ReqState} (ht : s.timer = false)
    (hl : s.listener = false) (e : Event) : step cfg s e = s := by
  cases e <;> simp [step, ht, hl]

theorem run_inert (cfg : SendConfig) (evs : List Event) {s : ReqState}
    (ht : s.timer = false) (hl : s.listener = false) : run cfg s evs = s := by
  induction evs with
  | nil => rfl
  | cons e evs ih =>
    show run cfg (step cfg s e) evs = s
    rw [step_inert cfg ht hl e]
    exact ih

/-- On an infinite-wait call the timer is never armed, and one event
preserves the invariant that the outcome was never a rejection. -/
theorem step_infinite_inv (cfg : SendConfig) (hinf : cfg.infinite = true)
    {s : ReqState} (h1 : s.timer = false)
    (h2 : ∀ r, s.outcome ≠ some (.rejected r)) (e : Event) :
    (step cfg s e).timer = false ∧
      ∀ r, (step cfg s e).outcome ≠ some (.rejected r) := by
  cases e with
  | timerFire =>
    have hs : step cfg s .timerFire = s := by simp [step, h1]
    rw [hs]
    exact ⟨h1, h2⟩
  | replyArrive v =>
    by_cases hl : s.listener = true
    · have hs : step cfg s (.replyArrive v) =
          { s with listener := false, timer := false,
                   outcome := settle s.outcome (.fulfilled v) } := by
        simp [step, hl, hinf]
      rw [hs]
      refine ⟨rfl, fun r hr => ?_⟩
      cases ho : s.outcome with
      | some x =>
        rw [ho] at hr
        simp only [settle] at hr
        exact h2 r (ho.trans hr)
      | none =>
        rw [ho] at hr
        simp [settle] at hr
    · have hs : step cfg s (.replyArrive v) = s := by
        simp [step, Bool.of_not_eq_true hl]
      rw [hs]
      exact ⟨h1, h2⟩

/-- On an infinite-wait call, no event sequence can ever produce a
rejected outcome. -/
theorem run_infinite_no_reject (cfg : SendConfig) (hinf : cfg.infinite = true)
    (evs : List Event) :
    ∀ s : ReqState, s.timer = false → (∀ r, s.outcome ≠ some (.rejected r)) →
      (run cfg s evs).timer = false ∧
        ∀ r, (run cfg s evs).outcome ≠ some (.rejected r) := by
  induction evs with
  | nil => intro s h1 h2; exact ⟨h1, h2⟩
  | cons e evs ih =>
    intro s h1 h2
    obtain ⟨h1s, h2s⟩ := step_infinite_inv cfg hinf h1 h2 e
    exact ih (step cfg s e) h1s h2s

/-! ### The claims -/

/-- C1: for every `sendMessageRequest` call, the completion signal
settles at most once — once an outcome (fulfilled or timed-out) is
reached after some event sequence, any further events leave exactly
that outcome, so fulfilled and timed-out can never both occur even
when a reply races the timer expiry; and a fire-and-forget call never
produces any completion signal. -/
theorem C1_exactly_once_resolution (a : String) (d : Value) (t : JSVal)
    (sd now : Nat) :
    (∀ (evs1 evs2 : List Event) (o : Outcome),
      (run (sendMessageRequest a d t sd now).cfg
        (sendMessageRequest a d t sd now).state evs1).outcome = some o →
      (run (sendMessageRequest a d t sd now).cfg
        (sendMessageRequest a d t sd now).state (evs1 ++ evs2)).outcome = some o) ∧
    ((sendMessageRequest a d t sd now).cfg.oneWay = true →
      ∀ evs : List Event,
        (run (sendMessageRequest a d t sd now).cfg
          (sendMessageRequest a d t sd now).state evs).outcome = none) := by
  constructor
  · intro evs1 evs2 o h
    rw [run_append]
    exact run_outcome_some _ _ _ h
  · intro h evs
    have ht : (sendMessageRequest a d t sd now).state.timer = false := by
      simp only [sendMessageRequest, initReqState] at h ⊢
      simp [h]
    have hl : (sendMessageRequest a d t sd now).state.listener = false := by
      simp only [sendMessageRequest, initReqState] at h ⊢
      simp [h]
    rw [run_inert _ _ ht hl]
    rfl

theorem C1_exactly_once_resolution_witness :
    (run (sendMessageRequest "ping" 1 (.num 50) 1 0).cfg
      (sendMessageRequest "ping" 1 (.num 50) 1 0).state
      ([Event.timerFire] ++ [Event.replyArrive 7])).outcome =
        some (.rejected "Timed out") ∧
    (run (sendMessageRequest "ping" 1 (.num 0) 1 0).cfg
      (sendMessageRequest "ping" 1 (.num 0) 1 0).state
      [Event.replyArrive 7]).outcome = none :=
  ⟨(C1_exactly_once_resolution "ping" 1 (.num 50) 1 0).1
      [Event.timerFire] [Event.replyArrive 7] _ (by decide),
   (C1_exactly_once_resolution "ping" 1 (.num 0) 1 0).2 (by decide)
      [Event.replyArrive 7]⟩

/-- The timed-out run of the C2 scenario, parameterized by the action
name: timeout 50, no reply, timer fires. -/
def pingTimeoutScenario (action : String) : ReqState :=
  run (sendMessageRequest action 1 (.num 50) 1 0).cfg
    (sendMessageRequest action 1 (.num 50) 1 0).state [.timerFire]

/-- C2 counterexample: in the scenario sendRequest of action ping with
timeout 50 and no reply, the rejection delivered to the caller is the
fixed string value and is identical to the rejection a different
action produces, so it carries neither the action name nor the
identifier. -/
theorem C2_counterexample_rejection_is_constant :
    (pingTimeoutScenario "ping").outcome = some (.rejected "Timed out") ∧
    (pingTimeoutScenario "ping").outcome =
      (pingTimeoutScenario "other").outcome := by
  decide

/-- C2 (amended): when a positive-timeout call times out, the
completion rejects with the fixed reason string, while the action name
and the request identifier are carried by the console diagnostic
emitted at expiry, not by the rejection value. -/
theorem C2_amended_timeout_rejection (a : String) (d : Value) (n : Int)
    (hn : 0 < n) (sd now : Nat) :
    (run (sendMessageRequest a d (.num n) sd now).cfg
      (sendMessageRequest a d (.num n) sd now).state [.timerFire]).outcome =
        some (.rejected "Timed out") ∧
    (run (sendMessageRequest a d (.num n) sd now).cfg
      (sendMessageRequest a d (.num n) sd now).state [.timerFire]).log =
        [.timedOutWarn (genId sd now) a] := by
  have h0 : (n == 0) = false := by
    simp [hn.ne']
  have h1 : decide (n < 0) = false := by
    simp [Int.not_lt.mpr hn.le]
  constructor <;>
    simp [sendMessageRequest, mkConfig, initReqState, run, step, settle,
      JSVal.eqZero, JSVal.truthy, JSVal.ltZero, h0, h1]

theorem C2_amended_timeout_rejection_witness :
    (run (sendMessageRequest "ping" 1 (.num 50) 2 9).cfg
      (sendMessageRequest "ping" 1 (.num 50) 2 9).state [.timerFire]).outcome =
        some (.rejected "Timed out") ∧
    (run (sendMessageRequest "ping" 1 (.num 50) 2 9).cfg
      (sendMessageRequest "ping" 1 (.num 50) 2 9).state [.timerFire]).log =
        [.timedOutWarn (genId 2 9) "ping"] :=
  C2_amended_timeout_rejection "ping" 1 50 (by decide) 2 9

/-- C3 counterexample: the promise returned by a fire-and-forget call
(timeout exactly 0) does not resolve immediately — right after the
synchronous executor body its outcome is unsettled, and it stays
unsettled after further events. -/
theorem C3_counterexample_no_immediate_resolution :
    (sendMessageRequest "ping" 1 (.num 0) 1 0).state.outcome = none ∧
    (run (sendMessageRequest "ping" 1 (.num 0) 1 0).cfg
      (sendMessageRequest "ping" 1 (.num 0) 1 0).state
      [.replyArrive 5, .timerFire]).outcome = none := by
  decide

/-- C3 (amended): a fire-and-forget call (timeout exactly 0) arms no
timer and installs no per-identifier reply listener, the only
synchronous transport effect is handing the message to the emitter,
and the returned signal never settles — the caller receives no
completion signal of any kind (rather than an immediately resolved
one). -/
theorem C3_amended_fire_and_forget (a : String) (d : Value) (sd now : Nat) :
    (sendMessageRequest a d (.num 0) sd now).cfg.oneWay = true ∧
    (sendMessageRequest a d (.num 0) sd now).state.timer = false ∧
    (sendMessageRequest a d (.num 0) sd now).state.listener = false ∧
    (sendMessageRequest a d (.num 0) sd now).ops =
      [SyncOp.emitSend "message-request"
        (sendMessageRequest a d (.num 0) sd now).message] ∧
    ∀ evs : List Event,
      (run (sendMessageRequest a d (.num 0) sd now).cfg
        (sendMessageRequest a d (.num 0) sd now).state evs).outcome = none := by
  refine ⟨rfl, rfl, rfl, ?_, ?_⟩
  · simp [sendMessageRequest, mkConfig, JSVal.eqZero]
  · intro evs
    rw [run_inert _ _ rfl rfl]
    rfl

/-- C5: identifiers generated by two distinct invocations are never
equal, even when both observe the same timestamp: each call uses the
current seed and bumps it, and identifiers built from different seeds
are different strings, so no identifier is ever reused while the
module state is alive. -/
theorem C5_identifier_uniqueness (a1 a2 : String) (d1 d2 : Value)
    (t1 t2 : JSVal) (s1 s2 n1 n2 : Nat) (h : s1 ≠ s2) :
    (sendMessageRequest a1 d1 t1 s1 n1).message.id ≠
      (sendMessageRequest a2 d2 t2 s2 n2).message.id ∧
    (sendMessageRequest a1 d1 t1 s1 n1).nextSeed = s1 + 1 :=
  ⟨genId_inj_of_seed_ne h, rfl⟩

theorem C5_identifier_uniqueness_witness :
    (sendMessageRequest "a" 1 (.num 50) 1 777).message.id ≠
      (sendMessageRequest "a" 1 (.num 50) 2 777).message.id ∧
    (sendMessageRequest "a" 1 (.num 50) 1 777).nextSeed = 1 + 1 :=
  C5_identifier_uniqueness "a" "a" 1 1 (.num 50) (.num 50) 1 2 777 777
    (by decide)

/-- C4: the timeout parameter is interpreted as: exactly 0 means
fire-and-forget; any negative number means wait indefinitely — the
timer is never armed and no event sequence can ever reject the
completion; any falsy value other than exactly 0 (absent, null, NaN)
falls back to the default bound of 2000; and any positive value arms
the timer for exactly that many time units. -/
theorem C4_timeout_interpretation (a id : String) :
    (∀ t : JSVal, (mkConfig a t id).oneWay = true ↔ t = JSVal.num 0) ∧
    (∀ n : Int, n < 0 →
      (mkConfig a (.num n) id).oneWay = false ∧
      (mkConfig a (.num n) id).infinite = true ∧
      ∀ (evs : List Event) (r : String),
        (run (mkConfig a (.num n) id)
          (initReqState (mkConfig a (.num n) id)) evs).outcome ≠
            some (.rejected r)) ∧
    (∀ t : JSVal, t.truthy = false → t ≠ JSVal.num 0 →
      (mkConfig a t id).oneWay = false ∧
      (mkConfig a t id).infinite = false ∧
      (mkConfig a t id).effTimeout = JSVal.num 2000) ∧
    (∀ n : Int, 0 < n →
      (mkConfig a (.num n) id).oneWay = false ∧
      (mkConfig a (.num n) id).infinite = false ∧
      (mkConfig a (.num n) id).effTimeout = JSVal.num n) := by
  refine ⟨?_, ?_, ?_, ?_⟩
  · intro t
    cases t <;> simp [mkConfig, JSVal.eqZero]
  · intro n hn
    have h0 : (n == 0) = false := by simp [hn.ne]
    have h1 : decide (n < 0) = true := by simp [hn]
    have h2 : (n != 0) = true := by simp [hn.ne]
    refine ⟨by simp [mkConfig, JSVal.eqZero, h0], ?_, ?_⟩
    · simp [mkConfig, JSVal.truthy, JSVal.ltZero, h1, h2]
    · intro evs r
      have hinf : (mkConfig a (.num n) id).infinite = true := by
        simp [mkConfig, JSVal.truthy, JSVal.ltZero, h1, h2]
      have ht : (initReqState (mkConfig a (.num n) id)).timer = false := by
        simp [initReqState, hinf]
      have hout : ∀ r', (initReqState (mkConfig a (.num n) id)).outcome ≠
          some (.rejected r') := by
        intro r'
        simp [initReqState]
      exact (run_infinite_no_reject _ hinf evs _ ht hout).2 r
  · intro t htr hne
    cases t with
    | num n =>
      have : n ≠ 0 := fun h => hne (by rw [h])
      simp [JSVal.truthy, this] at htr
    | undef => simp [mkConfig, JSVal.eqZero, JSVal.truthy, JSVal.ltZero]
    | null => simp [mkConfig, JSVal.eqZero, JSVal.truthy, JSVal.ltZero]
    | nan => simp [mkConfig, JSVal.eqZero, JSVal.truthy, JSVal.ltZero]
  · intro n hn
    have h0 : (n == 0) = false := by simp [hn.ne']
    have h1 : decide (n < 0) = false := by simp [Int.not_lt.mpr hn.le]
    have h2 : (n != 0) = true := by simp [hn.ne']
    refine ⟨by simp [mkConfig, JSVal.eqZero, h0], ?_, ?_⟩ <;>
      simp [mkConfig, JSVal.eqZero, JSVal.truthy, JSVal.ltZero, h0, h1, h2]

theorem C4_timeout_interpretation_witness :
    ((mkConfig "a" (JSVal.num 0) "i").oneWay = true ↔
      JSVal.num 0 = JSVal.num 0) ∧
    ((mkConfig "a" (JSVal.num (-1)) "i").infinite = true ∧
      (run (mkConfig "a" (JSVal.num (-1)) "i")
        (initReqState (mkConfig "a" (JSVal.num (-1)) "i"))
        [Event.timerFire, Event.replyArrive 3]).outcome ≠
          some (.rejected "Timed out")) ∧
    (mkConfig "a" JSVal.undef "i").effTimeout = JSVal.num 2000 ∧
    (mkConfig "a" (JSVal.num 50) "i").effTimeout = JSVal.num 50 :=
  ⟨(C4_timeout_interpretation "a" "i").1 (JSVal.num 0),
   ⟨((C4_timeout_interpretation "a" "i").2.1 (-1) (by decide)).2.1,
    ((C4_timeout_interpretation "a" "i").2.1 (-1) (by decide)).2.2
      [Event.timerFire, Event.replyArrive 3] "Timed out"⟩,
   ((C4_timeout_interpretation "a" "i").2.2.1 JSVal.undef (by decide)
      (by decide)).2.2,
   ((C4_timeout_interpretation "a" "i").2.2.2 50 (by decide)).2.2⟩

/-- C6: on every call that expects a reply, the whole Pending Request
is in place strictly before the outbound message is handed to the
emitter: the synchronous effect order of the executor is exactly
arm-the-timer, register-the-listener, emit for finite timeouts, and
exactly register-the-listener, emit for infinite waits — so the
per-identifier reply listener, and for finite timeouts also the armed
timer, strictly precede the emit. -/
theorem C6_register_before_emit (a : String) (d : Value) (t : JSVal)
    (sd now : Nat)
    (h : (sendMessageRequest a d t sd now).cfg.oneWay = false) :
    ((sendMessageRequest a d t sd now).cfg.infinite = false →
      (sendMessageRequest a d t sd now).ops =
        [SyncOp.armTimer (sendMessageRequest a d t sd now).cfg.effTimeout,
         SyncOp.registerListener (sendMessageRequest a d t sd now).message.id,
         SyncOp.emitSend "message-request"
           (sendMessageRequest a d t sd now).message]) ∧
    ((sendMessageRequest a d t sd now).cfg.infinite = true →
      (sendMessageRequest a d t sd now).ops =
        [SyncOp.registerListener (sendMessageRequest a d t sd now).message.id,
         SyncOp.emitSend "message-request"
           (sendMessageRequest a d t sd now).message]) := by
  have hc : (mkConfig a t (genId sd now)).oneWay = false := h
  constructor
  · intro hi
    have hc2 : (mkConfig a t (genId sd now)).infinite = false := hi
    simp [sendMessageRequest, hc, hc2]
  · intro hi
    have hc2 : (mkConfig a t (genId sd now)).infinite = true := hi
    simp [sendMessageRequest, hc, hc2]

theorem C6_register_before_emit_witness :
    (sendMessageRequest "ping" 1 (JSVal.num 50) 1 0).ops =
      [SyncOp.armTimer (sendMessageRequest "ping" 1 (JSVal.num 50) 1 0).cfg.effTimeout,
       SyncOp.registerListener
         (sendMessageRequest "ping" 1 (JSVal.num 50) 1 0).message.id,
       SyncOp.emitSend "message-request"
         (sendMessageRequest "ping" 1 (JSVal.num 50) 1 0).message] ∧
    (sendMessageRequest "ping" 1 (JSVal.num (-1)) 1 0).ops =
      [SyncOp.registerListener
         (sendMessageRequest "ping" 1 (JSVal.num (-1)) 1 0).message.id,
       SyncOp.emitSend "message-request"
         (sendMessageRequest "ping" 1 (JSVal.num (-1)) 1 0).message] :=
  ⟨(C6_register_before_emit "ping" 1 (JSVal.num 50) 1 0 (by decide)).1 (by decide),
   (C6_register_before_emit "ping" 1 (JSVal.num (-1)) 1 0 (by decide)).2 (by decide)⟩

/-- C7: once the timer of a call has fired, a reply arriving for that
identifier has no observable effect at all: the state after the late
reply equals the state right after expiry (nothing resolves, nothing
rejects, no exception is modelled to escape, and not even a diagnostic
is added because the listener was removed at expiry), and the expiry
itself settled the call as timed out if nothing had settled before. -/
theorem C7_late_reply_ignored (cfg : SendConfig) (s : ReqState) (v : Value)
    (h : s.timer = true) :
    step cfg (step cfg s .timerFire) (.replyArrive v) = step cfg s .timerFire ∧
    (step cfg s .timerFire).outcome = settle s.outcome (.rejected "Timed out") := by
  constructor
  · have hfire : step cfg s .timerFire =
        { timer := false, listener := false,
          outcome := settle s.outcome (.rejected "Timed out"),
          log := s.log ++ [.timedOutWarn cfg.id cfg.action] } := by
      simp [step, h]
    rw [hfire]
    simp [step]
  · simp [step, h]

theorem C7_late_reply_ignored_witness :
    step (mkConfig "ping" (JSVal.num 50) "i")
        (step (mkConfig "ping" (JSVal.num 50) "i")
          (initReqState (mkConfig "ping" (JSVal.num 50) "i")) .timerFire)
        (.replyArrive 7) =
      step (mkConfig "ping" (JSVal.num 50) "i")
        (initReqState (mkConfig "ping" (JSVal.num 50) "i")) .timerFire ∧
    (step (mkConfig "ping" (JSVal.num 50) "i")
        (initReqState (mkConfig "ping" (JSVal.num 50) "i")) .timerFire).outcome =
      settle (initReqState (mkConfig "ping" (JSVal.num 50) "i")).outcome
        (.rejected "Timed out") :=
  C7_late_reply_ignored (mkConfig "ping" (JSVal.num 50) "i")
    (initReqState (mkConfig "ping" (JSVal.num 50) "i")) 7 (by decide)

/-- C8: `initMessaging` fails with AlreadyInitialized exactly when the
module emitter is already set (so a second call always fails this
way), and on a first call fails with InvalidParameters exactly when
the listener or the callback is missing; both failures are values of
the synchronous call itself. -/
theorem C8_init_error_conditions (st : ModuleState) (l e c : Option Handle) :
    ((initMessaging st l e c).1 = .error .alreadyInitialized ↔
      st.emitterObj.isSome = true) ∧
    (st.emitterObj = none →
      ((initMessaging st l e c).1 = .error .invalidParameters ↔
        (l = none ∨ c = none))) := by
  cases hE : st.emitterObj with
  | some x =>
    simp [initMessaging, hE]
  | none =>
    cases l <;> cases c <;> simp [initMessaging, hE]

theorem C8_init_error_conditions_witness :
    ((initMessaging
        { initialModuleState with emitterObj := some 5 } (some 1) none (some 2)).1 =
      .error .alreadyInitialized ↔
        ( { initialModuleState with emitterObj := some 5 } : ModuleState).emitterObj.isSome = true) ∧
    ((initMessaging initialModuleState none none (some 2)).1 =
      .error .invalidParameters ↔
        ((none : Option Handle) = none ∨ (some 2 : Option Handle) = none)) :=
  ⟨(C8_init_error_conditions
      { initialModuleState with emitterObj := some 5 } (some 1) none (some 2)).1,
   (C8_init_error_conditions initialModuleState none none (some 2)).2 rfl⟩

/-- C9: `sendMessageReply` dispatches point-to-point through the
inbound event handle whenever the handle exists and exposes a reply
method, and otherwise sends on the shared emitter, in both cases using
the request identifier as the channel name; the modelled call is a
total function returning only its dispatch effect (no blocking, no
return value). -/
theorem C9_reply_dispatch (mid : String) (d : Value)
    (ev : Option IncomingEvent) :
    (∀ e : IncomingEvent, ev = some e → e.hasReply = true →
      sendMessageReply mid d ev = .viaEvent mid d) ∧
    ((ev = none ∨ ∃ e : IncomingEvent, ev = some e ∧ e.hasReply = false) →
      sendMessageReply mid d ev = .viaEmitter mid d) := by
  constructor
  · rintro e rfl hr
    simp [sendMessageReply, hr]
  · rintro (rfl | ⟨e, rfl, hr⟩)
    · rfl
    · simp [sendMessageReply, hr]

theorem C9_reply_dispatch_witness :
    sendMessageReply "msg-1-7" 3 (some { hasReply := true }) =
      .viaEvent "msg-1-7" 3 ∧
    sendMessageReply "msg-1-7" 3 none = .viaEmitter "msg-1-7" 3 ∧
    sendMessageReply "msg-1-7" 3 (some { hasReply := false }) =
      .viaEmitter "msg-1-7" 3 :=
  ⟨(C9_reply_dispatch "msg-1-7" 3 (some { hasReply := true })).1
      { hasReply := true } rfl rfl,
   (C9_reply_dispatch "msg-1-7" 3 none).2 (Or.inl rfl),
   (C9_reply_dispatch "msg-1-7" 3 (some { hasReply := false })).2
      (Or.inr ⟨{ hasReply := false }, rfl, rfl⟩)⟩

/-- C10: whenever `initMessaging` fails, the module state is returned
exactly as it was — no assignment and no subscription happened before
the throw; a call that failed with InvalidParameters does not consume
the one-time initialization, so a subsequent call with valid arguments
succeeds; and on an already-initialized state the AlreadyInitialized
failure takes precedence even when the arguments are also invalid. -/
theorem C10_init_failure_atomicity (st : ModuleState) (l e c : Option Handle) :
    (∀ err : InitError,
      (initMessaging st l e c).1 = .error err →
      (initMessaging st l e c).2 = st) ∧
    (st.emitterObj.isSome = true →
      (initMessaging st l e c).1 = .error .alreadyInitialized) ∧
    (st.emitterObj = none → (l = none ∨ c = none) →
      (initMessaging st l e c).2 = st ∧
      ∀ l2 e2 c2 : Option Handle, l2.isSome = true → c2.isSome = true →
        (initMessaging (initMessaging st l e c).2 l2 e2 c2).1 = .ok ()) := by
  refine ⟨?_, ?_, ?_⟩
  · intro err herr
    cases hE : st.emitterObj with
    | some x => simp [initMessaging, hE]
    | none =>
      cases l <;> cases c <;> simp [initMessaging, hE] at herr ⊢
  · intro h
    simp [initMessaging, h]
  · intro hE hbad
    have hfail : (initMessaging st l e c).2 = st := by
      rcases hbad with rfl | rfl
      · simp [initMessaging, hE]
      · cases l <;> simp [initMessaging, hE]
    refine ⟨hfail, ?_⟩
    intro l2 e2 c2 hl2 hc2
    rw [hfail]
    cases l2 with
    | none => simp at hl2
    | some x =>
      cases c2 with
      | none => simp at hc2
      | some y => simp [initMessaging, hE]

theorem C10_init_failure_atomicity_witness :
    (initMessaging initialModuleState none none none).2 =
      initialModuleState ∧
    (initMessaging
      { initialModuleState with emitterObj := some 5 } none none none).1 =
        .error .alreadyInitialized ∧
    (initMessaging (initMessaging initialModuleState none none none).2
      (some 1) none (some 2)).1 = .ok () :=
  ⟨((C10_init_failure_atomicity initialModuleState none none none).2.2
      rfl (Or.inl rfl)).1,
   (C10_init_failure_atomicity
      { initialModuleState with emitterObj := some 5 } none none none).2.1 rfl,
   ((C10_init_failure_atomicity initialModuleState none none none).2.2
      rfl (Or.inl rfl)).2 (some 1) none (some 2) rfl rfl⟩

end Messaging
